import Mathlib

/-!
Verification of the cargo-libafl fuzzing runtime against its specification.

The development shallowly embeds the parts of the repository that the
claims are about:

* the feedback engine wired up in
  src/cargo-libafl/cargo-libafl-runtime/runtime.rs (novelty feedback
  built with feedback_or! from MaxMapFeedback and TimeFeedback, objective
  feedback built with feedback_and_fast! from CrashFeedback and
  NewHashFeedback);
* the client startup logic of run_client (initial-input loading, artificial
  seed generation and the empty-corpus check) and the output-directory
  validation in main;
* the stage pipeline with the two IfElseStage wrappers gated on the
  grimoire option;
* the target runners generated by the fuzz_target! macro of
  src/cargo-libafl-helper/src/lib.rs (byte-slice and Arbitrary-typed
  variants, including the RUST_LIBFUZZER_DEBUG_PATH debug/replay branches);
* the Display implementation of BuildOptions in
  src/cargo-libafl/src/options.rs together with a model of the
  clap-derived command-line parser described by the field attributes of
  that struct, and the space-splitting used by its round-trip test.

The LibAFL combinators (MaxMapFeedback, TimeFeedback, CrashFeedback,
NewHashFeedback, feedback_or!, feedback_and_fast!, IfElseStage) are
library code that is not part of this repository; their semantics are
modelled from the specification, and the definitions below say so in
their doc comments.
-/

namespace CargoLibafl

/-! ## Execution observations (runtime.rs observers) -/

/-- Outcome of one in-process execution of the target, as reported by the
executor: normal return, crash, or timeout. -/
inductive Outcome
  | ok
  | crash
  | hang
deriving DecidableEq, Repr

/-- Per-execution observer data read by the feedback engine after one run:
the edge-coverage hit-count map, the wall-clock execution time, the exit
outcome, and the backtrace hash captured by the BacktraceObserver (only
meaningful on a crash). -/
structure ExecObservation where
  covMap : List Nat
  timeNs : Nat
  outcome : Outcome
  backtraceHash : Nat
deriving DecidableEq, Repr

/-! ## Novelty feedback (runtime.rs lines 243-253)

The novelty feedback is composed in the source as
feedback_or!(MaxMapFeedback::tracking(..), TimeFeedback::with_observer(..)).
The combinator and the two sub-feedbacks are LibAFL library code. -/

/-- Modelled from the spec: the edge-map novelty test of MaxMapFeedback,
true iff the per-execution map hits some edge above the value recorded in
the global maximum map ("new edge hit at all"). -/
def mapNovel (globalMap execMap : List Nat) : Bool :=
  (List.zip execMap globalMap).any fun p => p.2 < p.1

/-- Modelled from the spec: merging a per-execution map into the global
maximum map, pointwise maximum. -/
def mergeMax (globalMap execMap : List Nat) : List Nat :=
  List.zipWith max globalMap execMap

/-- The state carried by the novelty feedback within one session: the
global maximum coverage map, plus the per-input execution-time metadata
slot written by TimeFeedback. -/
structure NoveltyState where
  globalMap : List Nat
  timeMeta : Option Nat
deriving DecidableEq, Repr

/-- Modelled from the spec: is_interesting of MaxMapFeedback, the edge-map
test against the global maximum map. -/
def maxMapIsInteresting (st : NoveltyState) (obs : ExecObservation) : Bool :=
  mapNovel st.globalMap obs.covMap

/-- Modelled from the spec: is_interesting of TimeFeedback, which never
reports an input as interesting (it only records the execution time). -/
def timeIsInteresting (_st : NoveltyState) (_obs : ExecObservation) : Bool :=
  false

/-- The OR-combined novelty decision produced by feedback_or!: both
sub-feedbacks are evaluated and their results are OR-ed. -/
def noveltyIsInteresting (st : NoveltyState) (obs : ExecObservation) : Bool :=
  maxMapIsInteresting st obs || timeIsInteresting st obs

/-- Modelled from the spec: the state update of the combined novelty
feedback after one execution.  When the edge-map test is true the
per-execution map is merged into the global maximum map; TimeFeedback
unconditionally writes the execution time into the per-input metadata. -/
def noveltyUpdate (st : NoveltyState) (obs : ExecObservation) : NoveltyState :=
  { globalMap :=
      if maxMapIsInteresting st obs then mergeMax st.globalMap obs.covMap
      else st.globalMap
    timeMeta := some obs.timeNs }

/-- One evaluation of the novelty feedback: the admission decision paired
with the updated feedback state. -/
def noveltyStep (st : NoveltyState) (obs : ExecObservation) :
    Bool × NoveltyState :=
  (noveltyIsInteresting st obs, noveltyUpdate st obs)

/-! ## Objective feedback (runtime.rs lines 256-259)

The objective is composed in the source as
feedback_and_fast!(CrashFeedback::new(), NewHashFeedback::new(..)). -/

/-- Modelled from the spec: is_interesting of CrashFeedback, true iff the
execution outcome is a crash. -/
def crashIsInteresting (obs : ExecObservation) : Bool :=
  obs.outcome == Outcome.crash

/-- The state of NewHashFeedback: the set of backtrace-hash signatures
already seen in this session. -/
structure ObjectiveState where
  seenHashes : List Nat
deriving DecidableEq, Repr

/-- Modelled from the spec: is_interesting of NewHashFeedback, true iff
the crash signature has not been seen before. -/
def newHashIsInteresting (st : ObjectiveState) (obs : ExecObservation) : Bool :=
  !(st.seenHashes.contains obs.backtraceHash)

/-- Modelled from the spec: recording a crash signature as known. -/
def newHashRecord (st : ObjectiveState) (obs : ExecObservation) : ObjectiveState :=
  ⟨obs.backtraceHash :: st.seenHashes⟩

/-- Result of one objective evaluation: the admission decision, the updated
signature state, and whether the NewHashFeedback was evaluated at all
(feedback_and_fast! short-circuits, skipping the second feedback when the
first one returns false). -/
structure ObjectiveResult where
  admitted : Bool
  state : ObjectiveState
  hashChecked : Bool
deriving DecidableEq, Repr

/-- Modelled from the spec: one evaluation of the short-circuiting AND
combination feedback_and_fast!(CrashFeedback, NewHashFeedback).  The
signature check runs only when the outcome is a crash; a true result
records the signature as known. -/
def objectiveStep (st : ObjectiveState) (obs : ExecObservation) : ObjectiveResult :=
  if crashIsInteresting obs then
    if newHashIsInteresting st obs then ⟨true, newHashRecord st obs, true⟩
    else ⟨false, st, true⟩
  else ⟨false, st, false⟩

/-! ## The crash store across a session (C5) -/

/-- The durable crash store of one session: the objective state, the
ordered list of signatures of crash files persisted to the OnDiskCorpus of
solutions, and a counter of crash outcomes (duplicates included). -/
structure SolutionStore where
  objState : ObjectiveState
  persisted : List Nat
  crashCount : Nat
deriving DecidableEq, Repr

/-- The crash store at session start: nothing seen, nothing persisted. -/
def initialSolutionStore : SolutionStore :=
  ⟨⟨[]⟩, [], 0⟩

/-- Processing one execution result through the objective: an admitted
crash is persisted as a new file in the crash store; every crash outcome
is counted. -/
def solutionStep (s : SolutionStore) (obs : ExecObservation) : SolutionStore :=
  let r := objectiveStep s.objState obs
  { objState := r.state
    persisted := if r.admitted then s.persisted ++ [obs.backtraceHash] else s.persisted
    crashCount := s.crashCount + (if crashIsInteresting obs then 1 else 0) }

/-- Running a whole session of executions against the crash store. -/
def runSession (obss : List ExecObservation) : SolutionStore :=
  obss.foldl solutionStep initialSolutionStore

/-! ## Client startup (runtime.rs lines 389-421)

run_client loads initial inputs from the input directories plus the corpus
directory; only when that yields an empty corpus does it run the
artificial RandBytesGenerator; if the corpus is still empty it returns
Err(Error::ShuttingDown) instead of entering fuzz_loop. -/

/-- What the client does after the corpus-initialization phase. -/
inductive ClientOutcome
  | errored
  | fuzzLoopEntered
deriving DecidableEq, Repr

/-- The corpus count after load_initial_inputs and the conditional
generate_initial_inputs call: the generator only runs when loading
produced fewer than one input (and then everything in the corpus comes
from the generator). -/
def corpusCountAfterInit (loadedCount generatedCount : Nat) : Nat :=
  if loadedCount < 1 then generatedCount else loadedCount

/-- The tail of run_client: with the given corpus counts, either return
the ShuttingDown error or enter fuzzer.fuzz_loop. -/
def runClientStartup (loadedCount generatedCount : Nat) : ClientOutcome :=
  if corpusCountAfterInit loadedCount generatedCount = 0 then ClientOutcome.errored
  else ClientOutcome.fuzzLoopEntered

/-! ## Output directory validation in main (runtime.rs lines 184-192)

For each of the corpus and crashes paths, main attempts fs::create_dir;
if that fails and the path is not a directory it logs an error and
returns from main.  main has return type unit, so this early return makes
the process exit normally. -/

/-- What the file system reports about one output path: whether
fs::create_dir succeeded, and whether the path is a directory (consulted
only when creation failed). -/
structure DirProbe where
  createDirOk : Bool
  isDir : Bool
deriving DecidableEq, Repr

/-- How main ends: an early return after a failed directory validation
(with an error-level diagnostic logged), or proceeding to the launcher
and the fuzz loop. -/
inductive MainOutcome
  | configError (diagnosticLogged : Bool)
  | launched
deriving DecidableEq, Repr

/-- One directory fails validation when fs::create_dir failed and the
existing path is not a directory. -/
def dirCheckFails (d : DirProbe) : Bool :=
  !d.createDirOk && !d.isDir

/-- The validation loop of main over the corpus directory and the crashes
directory, in that order. -/
def validateOutDirs (corpusDir crashesDir : DirProbe) : MainOutcome :=
  if dirCheckFails corpusDir then MainOutcome.configError true
  else if dirCheckFails crashesDir then MainOutcome.configError true
  else MainOutcome.launched

/-- The process exit status produced by the validation phase: the early
return path leaves fn main() normally, which exits the process with
status 0.  none means validation passed and main continues to the
launcher. -/
def validationExitStatus (corpusDir crashesDir : DirProbe) : Option Nat :=
  match validateOutDirs corpusDir crashesDir with
  | MainOutcome.configError _ => some 0
  | MainOutcome.launched => none

/-! ## The stage pipeline (runtime.rs lines 307-324, 351-356, 380-387)

The stage tuple is (skippable_generalization, calibration, tracing, i2s,
power, skippable_grimoire); the two skippable stages are IfElseStage
wrappers whose condition closure returns the grimoire command-line
option, with an empty else-branch. -/

/-- The stages of the fuzz loop pipeline. -/
inductive StageKind
  | generalization
  | calibration
  | tracing
  | i2s
  | power
  | grimoire
deriving DecidableEq, Repr

/-- Modelled from the spec: IfElseStage runs its then-stages when the
condition closure returns true, and its else-stages otherwise. -/
def ifElseStage (cond : Bool) (thenStages elseStages : List StageKind) : List StageKind :=
  if cond then thenStages else elseStages

/-- The stages actually run on one fuzz-loop iteration, in pipeline
order, for a given value of the grimoire option. -/
def stagesPerIteration (grimoireEnabled : Bool) : List StageKind :=
  ifElseStage grimoireEnabled [StageKind.generalization] [] ++
    [StageKind.calibration, StageKind.tracing, StageKind.i2s, StageKind.power] ++
    ifElseStage grimoireEnabled [StageKind.grimoire] []

/-! ## The fuzz_target! runners (cargo-libafl-helper/src/lib.rs)

rust_fuzzer_initialize captures RUST_LIBFUZZER_DEBUG_PATH once; the
generated rust_fuzzer_test_input consults that captured value.  The two
macro variants are modelled as pure runners over the input bytes; file
writes are modelled by returning the content written to the configured
debug file. -/

/-- What one invocation of the byte-slice rust_fuzzer_test_input does:
the content written to the debug file (if any) and whether the user body
ran. -/
structure BytesRunOutcome where
  debugFileContent : Option String
  bodyRun : Bool
deriving DecidableEq, Repr

/-- The Debug formatting written for a byte slice input (the writeln! of
the value with the standard formatter). -/
def debugFmtBytes (bytes : List Nat) : String :=
  toString bytes

/-- The byte-slice variant of the fuzz_target! runner: when the debug
path was captured at initialization, write the Debug formatting of the
bytes and return without running the body; otherwise run the body. -/
def runBytesTarget (debugPath : Option String) (bytes : List Nat) : BytesRunOutcome :=
  match debugPath with
  | some _ => ⟨some (debugFmtBytes bytes), false⟩
  | none => ⟨none, true⟩

/-- A model of an Arbitrary implementation for a typed fuzz target: the
lower bound of size_hint, the arbitrary_take_rest decoder, and the
alternate ({:#?}) Debug formatting of decoded values. -/
structure ArbDecoder (α : Type) where
  sizeHintLo : Nat
  decode : List Nat → Except String α
  fmtAlt : α → String

/-- What one invocation of the typed rust_fuzzer_test_input does: the
content written to the debug file (if any) and the decoded value the user
body ran with (if it ran). -/
structure TypedRunOutcome (α : Type) where
  debugFileContent : Option String
  bodyRunWith : Option α
deriving DecidableEq, Repr

/-- The typed variant of the fuzz_target! runner: inputs shorter than the
size_hint lower bound return immediately; otherwise the input is decoded,
and with the debug path captured the runner writes the alternate Debug
formatting of the decoded value or the decode error and returns; without
a debug path the body runs on a successfully decoded value. -/
def runTypedTarget {α : Type} (D : ArbDecoder α) (debugPath : Option String)
    (bytes : List Nat) : TypedRunOutcome α :=
  if bytes.length < D.sizeHintLo then ⟨none, none⟩
  else
    let data := D.decode bytes
    match debugPath with
    | some _ =>
        ⟨some (match data with
               | Except.ok v => D.fmtAlt v
               | Except.error e => "Arbitrary Error: " ++ e),
         none⟩
    | none =>
        match data with
        | Except.ok v => ⟨none, some v⟩
        | Except.error _ => ⟨none, none⟩

/-- A concrete typed target used as a test vehicle: decodes the first two
bytes of the input into a pair.  Its size_hint lower bound is 2. -/
def pairDecoder : ArbDecoder (Nat × Nat) where
  sizeHintLo := 2
  decode := fun bytes =>
    match bytes with
    | b0 :: b1 :: _ => Except.ok (b0, b1)
    | _ => Except.error "not enough bytes"
  fmtAlt := fun v => toString v

/-! ## BuildOptions and its command-line round trip
(src/cargo-libafl/src/options.rs)

The Display implementation (options.rs 158-212) renders a BuildOptions
value back into command-line arguments, each written as a space followed
by the argument.  The round-trip test (options.rs 309-316) splits that
string on spaces and re-parses it with the clap-derived parser, whose
grammar is given by the clap attributes on the BuildOptions fields:
boolean flags -D, -O, -a, -v, --no-default-features, --all-features,
valued arguments --features, --sanitizer (with its FromStr), --target,
--target-dir, -Z (repeatable, requires a value), the conflicts
(dev with release; all-features with no-default-features and with
--features), and the skipped coverage field which is not an argument at
all. -/

/-- The sanitizer choices (options.rs 17-24). -/
inductive Sanitizer
  | address
  | leak
  | memory
  | thread
  | none
deriving DecidableEq, Repr

/-- Display for Sanitizer (options.rs 26-40). -/
def sanitizerDisplay : Sanitizer → String
  | Sanitizer.address => "address"
  | Sanitizer.leak => "leak"
  | Sanitizer.memory => "memory"
  | Sanitizer.thread => "thread"
  | Sanitizer.none => ""

/-- FromStr for Sanitizer (options.rs 42-55). -/
def sanitizerFromStr (s : String) : Except String Sanitizer :=
  if s = "address" then Except.ok Sanitizer.address
  else if s = "leak" then Except.ok Sanitizer.leak
  else if s = "memory" then Except.ok Sanitizer.memory
  else if s = "thread" then Except.ok Sanitizer.thread
  else if s = "none" then Except.ok Sanitizer.none
  else Except.error ("unknown sanitizer: " ++ s)

/-- default_target() from utils.rs: the build-time TARGET environment
variable with the x86_64 linux fallback; modelled as the fallback. -/
def defaultTarget : String := "x86_64-unknown-linux-gnu"

/-- The BuildOptions struct (options.rs 57-156). -/
structure BuildOptions where
  dev : Bool
  release : Bool
  debug_assertions : Bool
  verbose : Bool
  no_default_features : Bool
  all_features : Bool
  features : Option String
  sanitizer : Sanitizer
  build_std : Bool
  careful_mode : Bool
  triple : String
  unstable_flags : List String
  target_dir : Option String
  coverage : Bool
  strip_dead_code : Bool
  no_cfg_fuzzing : Bool
  no_trace_compares : Bool
deriving DecidableEq, Repr

/-- The clap defaults of BuildOptions: every flag off, sanitizer address,
triple the default target (matches default_opts of the test at
options.rs 237-255). -/
def defaultBuildOptions : BuildOptions where
  dev := false
  release := false
  debug_assertions := false
  verbose := false
  no_default_features := false
  all_features := false
  features := Option.none
  sanitizer := Sanitizer.address
  build_std := false
  careful_mode := false
  triple := defaultTarget
  unstable_flags := []
  target_dir := Option.none
  coverage := false
  strip_dead_code := false
  no_cfg_fuzzing := false
  no_trace_compares := false

/-- The sanitizer part of Display for BuildOptions (options.rs 188-192):
nothing for address, a literal for none, the Display name otherwise. -/
def sanitizerTokens : Sanitizer → List String
  | Sanitizer.none => ["--sanitizer=none"]
  | Sanitizer.address => []
  | s => ["--sanitizer=" ++ sanitizerDisplay s]

/-- The features part of Display for BuildOptions (options.rs 184-186). -/
def featuresTokens : Option String → List String
  | Option.some f => ["--features=" ++ f]
  | Option.none => []

/-- The target-dir part of Display for BuildOptions (options.rs
202-204). -/
def targetDirTokens : Option String → List String
  | Option.some d => ["--target-dir=" ++ d]
  | Option.none => []

/-- The command-line arguments written by Display for BuildOptions
(options.rs 158-212), one list entry per written argument, in source
order.  Display never writes build_std, careful_mode, strip_dead_code,
no_cfg_fuzzing or no_trace_compares; it does write --coverage. -/
def displayTokens (o : BuildOptions) : List String :=
  (if o.dev then ["-D"] else []) ++
    (if o.release then ["-O"] else []) ++
    (if o.debug_assertions then ["-a"] else []) ++
    (if o.verbose then ["-v"] else []) ++
    (if o.no_default_features then ["--no-default-features"] else []) ++
    (if o.all_features then ["--all-features"] else []) ++
    featuresTokens o.features ++
    sanitizerTokens o.sanitizer ++
    (if o.triple ≠ defaultTarget then ["--target=" ++ o.triple] else []) ++
    o.unstable_flags.map (fun fl => "-Z" ++ fl) ++
    targetDirTokens o.target_dir ++
    (if o.coverage then ["--coverage"] else [])

/-- Each Display argument is written as a space followed by the argument
text; this is the character sequence of the full Display output. -/
def joinArgsData (toks : List String) : List Char :=
  (toks.map (fun t => ' ' :: t.data)).flatten

/-- The Display output of a BuildOptions value, as one string. -/
def displayBuildOptions (o : BuildOptions) : String :=
  String.mk (joinArgsData (displayTokens o))

/-- str::split with the space separator, as used on the Display output by
the round-trip test (options.rs 313): every space splits, and empty
pieces are kept. -/
def splitSpacesChars : List Char → List (List Char)
  | [] => [[]]
  | c :: cs =>
    if c = ' ' then [] :: splitSpacesChars cs
    else
      match splitSpacesChars cs with
      | [] => [[c]]
      | p :: ps => (c :: p) :: ps

/-- Splitting a string on spaces. -/
def splitSpaces (s : String) : List String :=
  (splitSpacesChars s.data).map String.mk

/-- Strips an expected leading character sequence, returning the rest. -/
def stripPre : List Char → List Char → Option (List Char)
  | [], t => Option.some t
  | _ :: _, [] => Option.none
  | p :: ps, c :: cs => if p = c then stripPre ps cs else Option.none

/-- Strips an expected leading piece from an argument token, returning
the attached value. -/
def stripToken (pre t : String) : Option String :=
  (stripPre pre.data t.data).map String.mk

/-- Modelled from the clap attributes on BuildOptions (options.rs
57-156): consuming one argument token.  Valued arguments use the
attached --name=value (or -Zvalue) form, which is the form Display
writes; an unknown argument (including --coverage, whose field carries
the clap skip attribute and is not an argument) is an error; -Z without
an attached value is an error. -/
def parseToken (o : BuildOptions) (t : String) : Except String BuildOptions :=
  match stripToken "--features=" t with
  | Option.some v => Except.ok {o with features := Option.some v}
  | Option.none =>
  match stripToken "--sanitizer=" t with
  | Option.some v => (sanitizerFromStr v).map fun s => {o with sanitizer := s}
  | Option.none =>
  match stripToken "--target-dir=" t with
  | Option.some v => Except.ok {o with target_dir := Option.some v}
  | Option.none =>
  match stripToken "--target=" t with
  | Option.some v => Except.ok {o with triple := v}
  | Option.none =>
  match stripToken "-Z" t with
  | Option.some v =>
      if v = "" then Except.error "a value is required for -Z"
      else Except.ok {o with unstable_flags := o.unstable_flags ++ [v]}
  | Option.none =>
  if t = "-D" then Except.ok {o with dev := true}
  else if t = "-O" then Except.ok {o with release := true}
  else if t = "-a" then Except.ok {o with debug_assertions := true}
  else if t = "-v" then Except.ok {o with verbose := true}
  else if t = "--no-default-features" then Except.ok {o with no_default_features := true}
  else if t = "--all-features" then Except.ok {o with all_features := true}
  else Except.error ("unexpected argument: " ++ t)

/-- Modelled from the clap attributes on BuildOptions: parsing an
argument list from the defaults, then enforcing the declared conflicts
(dev with release; all-features with no-default-features and with
features). -/
def parseTokens (toks : List String) : Except String BuildOptions := do
  let o ← toks.foldlM parseToken defaultBuildOptions
  if o.dev && o.release then
    Except.error "the argument -D cannot be used with -O"
  else if o.all_features && (o.no_default_features || o.features.isSome) then
    Except.error "the argument --all-features cannot be used with --no-default-features or --features"
  else Except.ok o

/-- Parsing the command-line string produced by Display: split on spaces
as the round-trip test does; the leading (empty) piece is the binary-name
element of the argument vector and is not parsed. -/
def parseCommandLine (s : String) : Except String BuildOptions :=
  match splitSpaces s with
  | [] => Except.error "empty command line"
  | _ :: args => parseTokens args

end CargoLibafl

namespace CargoLibafl

/-! ## Helper lemmas for the feedback engine -/

/-- After merging an execution map into the global maximum map, that same
execution map is never novel again: every entry of the merged map
dominates the corresponding execution entry. -/
theorem mapNovel_mergeMax (g e : List Nat) : mapNovel (mergeMax g e) e = false := by
  unfold mapNovel mergeMax
  rw [List.any_eq_false]
  intro p hp
  rw [List.mem_iff_getElem] at hp
  obtain ⟨i, hi, hp⟩ := hp
  have h1 : i < e.length := by
    simp only [List.length_zip, List.length_zipWith, lt_inf_iff] at hi
    exact hi.1
  have h2 : i < (List.zipWith max g e).length := by
    simp only [List.length_zip, List.length_zipWith, lt_inf_iff] at hi ⊢
    exact hi.2
  rw [List.getElem_zip] at hp
  subst hp
  simp only [List.getElem_zipWith, decide_eq_true_eq, not_lt]
  exact Nat.le_max_right _ _

/-- The persisted crash files are always a subset of the seen signatures,
and never contain a duplicate signature. -/
theorem solutionStore_invariant (obss : List ExecObservation) (s : SolutionStore)
    (hnd : s.persisted.Nodup) (hsub : ∀ h ∈ s.persisted, h ∈ s.objState.seenHashes) :
    (obss.foldl solutionStep s).persisted.Nodup ∧
      ∀ h ∈ (obss.foldl solutionStep s).persisted,
        h ∈ (obss.foldl solutionStep s).objState.seenHashes := by
  induction obss generalizing s with
  | nil => exact ⟨hnd, hsub⟩
  | cons obs rest ih =>
    simp only [List.foldl_cons]
    apply ih
    · -- Nodup is preserved by one step
      unfold solutionStep objectiveStep
      by_cases hc : crashIsInteresting obs
      · by_cases hn : newHashIsInteresting s.objState obs
        · simp only [hc, hn, if_true]
          refine List.Nodup.append hnd (List.nodup_singleton _) ?_
          intro a ha hb
          rw [List.mem_singleton] at hb
          have hmem := hsub a ha
          have hns : obs.backtraceHash ∉ s.objState.seenHashes := by
            simpa [newHashIsInteresting] using hn
          exact hns (hb ▸ hmem)
        · simp only [hc, hn, if_true, if_false, Bool.false_eq_true]
          exact hnd
      · simp only [hc, if_false, Bool.false_eq_true]
        exact hnd
    · -- the subset invariant is preserved by one step
      unfold solutionStep objectiveStep
      by_cases hc : crashIsInteresting obs
      · by_cases hn : newHashIsInteresting s.objState obs
        · simp only [hc, hn, if_true]
          intro h hh
          rw [List.mem_append, List.mem_singleton] at hh
          rcases hh with hh | hh
          · exact List.mem_cons_of_mem _ (hsub h hh)
          · subst hh
            exact List.mem_cons_self _ _
        · simp only [hc, hn, if_true, if_false, Bool.false_eq_true]
          exact hsub
      · simp only [hc, if_false, Bool.false_eq_true]
        exact hsub

/-! ## Helper lemmas for the BuildOptions round trip -/

/-- Consuming -D sets the dev flag. -/
theorem parseToken_D (o : BuildOptions) :
    parseToken o "-D" = Except.ok {o with dev := true} := rfl

/-- Consuming -O sets the release flag. -/
theorem parseToken_O (o : BuildOptions) :
    parseToken o "-O" = Except.ok {o with release := true} := rfl

/-- Consuming -a sets the debug_assertions flag. -/
theorem parseToken_a (o : BuildOptions) :
    parseToken o "-a" = Except.ok {o with debug_assertions := true} := rfl

/-- Consuming -v sets the verbose flag. -/
theorem parseToken_v (o : BuildOptions) :
    parseToken o "-v" = Except.ok {o with verbose := true} := rfl

/-- Consuming the no-default-features flag. -/
theorem parseToken_ndf (o : BuildOptions) :
    parseToken o "--no-default-features" =
      Except.ok {o with no_default_features := true} := rfl

/-- Consuming the all-features flag. -/
theorem parseToken_af (o : BuildOptions) :
    parseToken o "--all-features" = Except.ok {o with all_features := true} := rfl

/-- Consuming an attached features value. -/
theorem parseToken_features (o : BuildOptions) (f : String) :
    parseToken o ("--features=" ++ f) =
      Except.ok {o with features := Option.some f} := rfl

/-- Consuming an attached target triple. -/
theorem parseToken_target (o : BuildOptions) (v : String) :
    parseToken o ("--target=" ++ v) = Except.ok {o with triple := v} := rfl

/-- Consuming an attached target-dir value. -/
theorem parseToken_target_dir (o : BuildOptions) (v : String) :
    parseToken o ("--target-dir=" ++ v) =
      Except.ok {o with target_dir := Option.some v} := rfl

/-- Consuming an attached nonempty -Z value appends an unstable flag. -/
theorem parseToken_z (o : BuildOptions) (c : Char) (cs : List Char) :
    parseToken o ("-Z" ++ String.mk (c :: cs)) =
      Except.ok {o with unstable_flags := o.unstable_flags ++ [String.mk (c :: cs)]} := rfl

/-- Chaining foldlM over an argument-list append when both halves
succeed. -/
theorem foldlM_append_ok (l1 l2 : List String) (s s' s'' : BuildOptions)
    (h1 : List.foldlM parseToken s l1 = Except.ok s')
    (h2 : List.foldlM parseToken s' l2 = Except.ok s'') :
    List.foldlM parseToken s (l1 ++ l2) = Except.ok s'' := by
  rw [List.foldlM_append, h1]
  exact h2

/-- Folding the displayed -Z arguments appends exactly the unstable
flags, provided none of them is empty. -/
theorem foldlM_zflags (fls : List String) (h : ∀ fl ∈ fls, fl ≠ "")
    (s : BuildOptions) :
    List.foldlM parseToken s (fls.map fun fl => "-Z" ++ fl) =
      Except.ok {s with unstable_flags := s.unstable_flags ++ fls} := by
  induction fls generalizing s with
  | nil =>
      simp only [List.map_nil, List.foldlM_nil, List.append_nil]
      rfl
  | cons fl rest ih =>
      have hfl : fl ≠ "" := h fl (List.mem_cons_self _ _)
      obtain ⟨d⟩ := fl
      cases d with
      | nil => exact absurd rfl hfl
      | cons c cs =>
          rw [List.map_cons, List.foldlM_cons, parseToken_z]
          show List.foldlM parseToken
              {s with unstable_flags := s.unstable_flags ++ [String.mk (c :: cs)]}
              (rest.map fun fl => "-Z" ++ fl) = _
          rw [ih (fun x hx => h x (List.mem_cons_of_mem _ hx))]
          simp [List.append_assoc]

/-- Splitting on spaces walks through a space-free piece unchanged. -/
theorem splitSpacesChars_append (t rest : List Char) (h : ' ' ∉ t)
    (p : List Char) (ps : List (List Char))
    (hr : splitSpacesChars rest = p :: ps) :
    splitSpacesChars (t ++ rest) = (t ++ p) :: ps := by
  induction t with
  | nil => simpa using hr
  | cons c cs ih =>
      have hc : c ≠ ' ' := by
        intro e
        subst e
        exact h (List.mem_cons_self _ _)
      have ih' := ih (fun hm => h (List.mem_cons_of_mem _ hm))
      rw [List.cons_append]
      simp only [splitSpacesChars]
      rw [if_neg hc, ih']
      rfl

/-- Splitting the concatenation of space-led, space-free pieces recovers
an initial empty piece followed by the pieces. -/
theorem splitSpacesChars_joined (toks : List (List Char))
    (h : ∀ t ∈ toks, ' ' ∉ t) :
    splitSpacesChars ((toks.map (fun t => ' ' :: t)).flatten) = [] :: toks := by
  induction toks with
  | nil => rfl
  | cons t ts ih =>
      simp only [List.map_cons, List.flatten_cons, List.cons_append]
      have hrest := ih (fun x hx => h x (List.mem_cons_of_mem _ hx))
      simp only [splitSpacesChars, if_pos rfl]
      rw [splitSpacesChars_append t _ (h t (List.mem_cons_self _ _)) [] ts hrest]
      simp

/-- Re-collecting character lists into strings is the identity on data
obtained from strings. -/
theorem map_mk_map_data (l : List String) :
    (l.map String.data).map String.mk = l := by
  induction l with
  | nil => rfl
  | cons a as ih => rw [List.map_cons, List.map_cons, ih]

/-- Splitting the Display output on spaces yields an empty binary-name
piece followed by exactly the displayed arguments, provided no argument
contains a space. -/
theorem splitSpaces_display (o : BuildOptions)
    (hsp : ∀ tk ∈ displayTokens o, ' ' ∉ tk.data) :
    splitSpaces (displayBuildOptions o) = "" :: displayTokens o := by
  show (splitSpacesChars
      (((displayTokens o).map (fun t => ' ' :: t.data)).flatten)).map String.mk =
    "" :: displayTokens o
  have h1 : (displayTokens o).map (fun t => ' ' :: t.data) =
      ((displayTokens o).map String.data).map (fun t => ' ' :: t) := by
    rw [List.map_map]
    rfl
  have hmem : ∀ t ∈ (displayTokens o).map String.data, ' ' ∉ t := by
    intro t ht
    obtain ⟨tk, htk, rfl⟩ := List.mem_map.mp ht
    exact hsp tk htk
  rw [h1, splitSpacesChars_joined _ hmem, List.map_cons, map_mk_map_data]

/-- Parsing back the displayed argument list of a BuildOptions value
recovers the value, provided the fields Display does not render
(build_std, careful_mode, strip_dead_code, no_cfg_fuzzing,
no_trace_compares) are off, coverage is off (it is rendered but is not an
argument of the parser), the clap conflicts are absent, and no unstable
flag is empty. -/
theorem parseTokens_display (o : BuildOptions)
    (hbs : o.build_std = false) (hcm : o.careful_mode = false)
    (hsdc : o.strip_dead_code = false) (hncf : o.no_cfg_fuzzing = false)
    (hntc : o.no_trace_compares = false) (hcov : o.coverage = false)
    (hdr : (o.dev && o.release) = false)
    (haf : (o.all_features && (o.no_default_features || o.features.isSome)) = false)
    (hz : ∀ fl ∈ o.unstable_flags, fl ≠ "") :
    parseTokens (displayTokens o) = Except.ok o := by
  obtain ⟨dev, rel, da, vb, ndf, af, fe, sa, bs, cm, tr, uf, td, cov, sdc, ncf, ntc⟩ := o
  replace hbs : bs = false := hbs
  replace hcm : cm = false := hcm
  replace hsdc : sdc = false := hsdc
  replace hncf : ncf = false := hncf
  replace hntc : ntc = false := hntc
  replace hcov : cov = false := hcov
  replace hdr : (dev && rel) = false := hdr
  replace haf : (af && (ndf || fe.isSome)) = false := haf
  replace hz : ∀ fl ∈ uf, fl ≠ "" := hz
  subst hbs hcm hsdc hncf hntc hcov
  have t1 : List.foldlM parseToken defaultBuildOptions
      (if dev = true then ["-D"] else []) =
      Except.ok ⟨dev, false, false, false, false, false, Option.none, Sanitizer.address,
        false, false, defaultTarget, [], Option.none, false, false, false, false⟩ := by
    cases dev <;> rfl
  have t2 : List.foldlM parseToken
      ⟨dev, false, false, false, false, false, Option.none, Sanitizer.address,
        false, false, defaultTarget, [], Option.none, false, false, false, false⟩
      (if rel = true then ["-O"] else []) =
      Except.ok ⟨dev, rel, false, false, false, false, Option.none, Sanitizer.address,
        false, false, defaultTarget, [], Option.none, false, false, false, false⟩ := by
    cases rel <;> rfl
  have t3 : List.foldlM parseToken
      ⟨dev, rel, false, false, false, false, Option.none, Sanitizer.address,
        false, false, defaultTarget, [], Option.none, false, false, false, false⟩
      (if da = true then ["-a"] else []) =
      Except.ok ⟨dev, rel, da, false, false, false, Option.none, Sanitizer.address,
        false, false, defaultTarget, [], Option.none, false, false, false, false⟩ := by
    cases da <;> rfl
  have t4 : List.foldlM parseToken
      ⟨dev, rel, da, false, false, false, Option.none, Sanitizer.address,
        false, false, defaultTarget, [], Option.none, false, false, false, false⟩
      (if vb = true then ["-v"] else []) =
      Except.ok ⟨dev, rel, da, vb, false, false, Option.none, Sanitizer.address,
        false, false, defaultTarget, [], Option.none, false, false, false, false⟩ := by
    cases vb <;> rfl
  have t5 : List.foldlM parseToken
      ⟨dev, rel, da, vb, false, false, Option.none, Sanitizer.address,
        false, false, defaultTarget, [], Option.none, false, false, false, false⟩
      (if ndf = true then ["--no-default-features"] else []) =
      Except.ok ⟨dev, rel, da, vb, ndf, false, Option.none, Sanitizer.address,
        false, false, defaultTarget, [], Option.none, false, false, false, false⟩ := by
    cases ndf <;> rfl
  have t6 : List.foldlM parseToken
      ⟨dev, rel, da, vb, ndf, false, Option.none, Sanitizer.address,
        false, false, defaultTarget, [], Option.none, false, false, false, false⟩
      (if af = true then ["--all-features"] else []) =
      Except.ok ⟨dev, rel, da, vb, ndf, af, Option.none, Sanitizer.address,
        false, false, defaultTarget, [], Option.none, false, false, false, false⟩ := by
    cases af <;> rfl
  have t7 : List.foldlM parseToken
      ⟨dev, rel, da, vb, ndf, af, Option.none, Sanitizer.address,
        false, false, defaultTarget, [], Option.none, false, false, false, false⟩
      (featuresTokens fe) =
      Except.ok ⟨dev, rel, da, vb, ndf, af, fe, Sanitizer.address,
        false, false, defaultTarget, [], Option.none, false, false, false, false⟩ := by
    cases fe <;> rfl
  have t8 : List.foldlM parseToken
      ⟨dev, rel, da, vb, ndf, af, fe, Sanitizer.address,
        false, false, defaultTarget, [], Option.none, false, false, false, false⟩
      (sanitizerTokens sa) =
      Except.ok ⟨dev, rel, da, vb, ndf, af, fe, sa,
        false, false, defaultTarget, [], Option.none, false, false, false, false⟩ := by
    cases sa <;> rfl
  have t9 : List.foldlM parseToken
      ⟨dev, rel, da, vb, ndf, af, fe, sa,
        false, false, defaultTarget, [], Option.none, false, false, false, false⟩
      (if tr ≠ defaultTarget then ["--target=" ++ tr] else []) =
      Except.ok ⟨dev, rel, da, vb, ndf, af, fe, sa,
        false, false, tr, [], Option.none, false, false, false, false⟩ := by
    by_cases htr : tr = defaultTarget
    · subst htr
      rfl
    · rw [if_pos htr]
      rfl
  have t10 : List.foldlM parseToken
      ⟨dev, rel, da, vb, ndf, af, fe, sa,
        false, false, tr, [], Option.none, false, false, false, false⟩
      (uf.map fun fl => "-Z" ++ fl) =
      Except.ok ⟨dev, rel, da, vb, ndf, af, fe, sa,
        false, false, tr, uf, Option.none, false, false, false, false⟩ :=
    foldlM_zflags uf hz _
  have t11 : List.foldlM parseToken
      ⟨dev, rel, da, vb, ndf, af, fe, sa,
        false, false, tr, uf, Option.none, false, false, false, false⟩
      (targetDirTokens td) =
      Except.ok ⟨dev, rel, da, vb, ndf, af, fe, sa,
        false, false, tr, uf, td, false, false, false, false⟩ := by
    cases td <;> rfl
  have t12 : List.foldlM parseToken
      ⟨dev, rel, da, vb, ndf, af, fe, sa,
        false, false, tr, uf, td, false, false, false, false⟩
      (if false = true then ["--coverage"] else []) =
      Except.ok ⟨dev, rel, da, vb, ndf, af, fe, sa,
        false, false, tr, uf, td, false, false, false, false⟩ := rfl
  have hfold : List.foldlM parseToken defaultBuildOptions
      (displayTokens ⟨dev, rel, da, vb, ndf, af, fe, sa,
        false, false, tr, uf, td, false, false, false, false⟩) =
      Except.ok ⟨dev, rel, da, vb, ndf, af, fe, sa,
        false, false, tr, uf, td, false, false, false, false⟩ :=
    foldlM_append_ok _ _ _ _ _
      (foldlM_append_ok _ _ _ _ _
        (foldlM_append_ok _ _ _ _ _
          (foldlM_append_ok _ _ _ _ _
            (foldlM_append_ok _ _ _ _ _
              (foldlM_append_ok _ _ _ _ _
                (foldlM_append_ok _ _ _ _ _
                  (foldlM_append_ok _ _ _ _ _
                    (foldlM_append_ok _ _ _ _ _
                      (foldlM_append_ok _ _ _ _ _
                        (foldlM_append_ok _ _ _ _ _ t1 t2) t3) t4) t5) t6) t7) t8) t9)
              t10) t11) t12
  have hchain : parseTokens (displayTokens ⟨dev, rel, da, vb, ndf, af, fe, sa,
      false, false, tr, uf, td, false, false, false, false⟩) =
      (if (dev && rel) = true then
        Except.error "the argument -D cannot be used with -O"
      else if (af && (ndf || fe.isSome)) = true then
        Except.error
          "the argument --all-features cannot be used with --no-default-features or --features"
      else Except.ok ⟨dev, rel, da, vb, ndf, af, fe, sa,
        false, false, tr, uf, td, false, false, false, false⟩) := by
    unfold parseTokens
    rw [hfold]
    rfl
  rw [hchain, hdr, haf]
  rfl

/-! ## Claim theorems -/

/-- C1: For every execution, the OR-combined novelty feedback admits the
input to the corpus iff the edge-coverage map test against the global
maximum map is true; the time feedback writes the execution time into the
per-input metadata but never itself reports the input as interesting; and
exactly when the edge-map result is true, the per-execution map is merged
into the global maximum map. -/
theorem novelty_admission (st : NoveltyState) (obs : ExecObservation) :
    (noveltyStep st obs).1 = mapNovel st.globalMap obs.covMap ∧
    timeIsInteresting st obs = false ∧
    (noveltyStep st obs).2.timeMeta = some obs.timeNs ∧
    (noveltyStep st obs).2.globalMap =
      (if mapNovel st.globalMap obs.covMap then mergeMax st.globalMap obs.covMap
       else st.globalMap) := by
  refine ⟨?_, rfl, rfl, rfl⟩
  simp [noveltyStep, noveltyIsInteresting, maxMapIsInteresting, timeIsInteresting]

/-- C4: Evaluating the same byte input (hence the same observation)
through the novelty feedback twice in one session admits it at most once:
the second evaluation returns false and leaves the feedback state — in
particular the global maximum map — exactly as it was after the first
evaluation. -/
theorem novelty_idempotent (st : NoveltyState) (obs : ExecObservation) :
    (noveltyStep (noveltyStep st obs).2 obs).1 = false ∧
    (noveltyStep (noveltyStep st obs).2 obs).2 = (noveltyStep st obs).2 := by
  have hkey : maxMapIsInteresting (noveltyUpdate st obs) obs = false := by
    show mapNovel (noveltyUpdate st obs).globalMap obs.covMap = false
    unfold noveltyUpdate
    cases hb : maxMapIsInteresting st obs with
    | true => simpa using mapNovel_mergeMax st.globalMap obs.covMap
    | false =>
        unfold maxMapIsInteresting at hb
        simpa using hb
  refine ⟨?_, ?_⟩
  · show noveltyIsInteresting (noveltyUpdate st obs) obs = false
    unfold noveltyIsInteresting timeIsInteresting
    rw [hkey]
    rfl
  · show noveltyUpdate (noveltyUpdate st obs) obs = noveltyUpdate st obs
    conv_lhs => rw [noveltyUpdate]
    rw [hkey]
    simp only [Bool.false_eq_true, if_false]
    rfl

/-- C2: The objective admits an execution to the crash store iff its
outcome is Crash and its backtrace-hash signature is new; the
short-circuiting AND evaluates the signature check exactly when the
outcome is Crash; and an admission records the signature as known. -/
theorem objective_admission (st : ObjectiveState) (obs : ExecObservation) :
    ((objectiveStep st obs).admitted = true ↔
      (obs.outcome = Outcome.crash ∧ obs.backtraceHash ∉ st.seenHashes)) ∧
    ((objectiveStep st obs).hashChecked = true ↔ obs.outcome = Outcome.crash) ∧
    (objectiveStep st obs).state.seenHashes =
      (if (objectiveStep st obs).admitted then obs.backtraceHash :: st.seenHashes
       else st.seenHashes) := by
  unfold objectiveStep crashIsInteresting newHashIsInteresting newHashRecord
  rcases obs with ⟨cm, t, oc, h⟩
  cases oc <;>
    simp only [beq_iff_eq, reduceCtorEq, if_true, if_false] <;>
    by_cases hm : h ∈ st.seenHashes <;>
    simp [hm]

/-- C5: After any sequence of executions, no two files persisted in the
crash store share a signature; moreover at any store state, a crash with
an already-seen signature is counted but not persisted, while a crash
with a fresh signature is persisted. -/
theorem crash_store_dedup (obss : List ExecObservation) (s : SolutionStore)
    (obs : ExecObservation) (hc : obs.outcome = Outcome.crash) :
    (runSession obss).persisted.Nodup ∧
    ((obs.backtraceHash ∈ s.objState.seenHashes) →
      (solutionStep s obs).persisted = s.persisted ∧
      (solutionStep s obs).crashCount = s.crashCount + 1) ∧
    ((obs.backtraceHash ∉ s.objState.seenHashes) →
      (solutionStep s obs).persisted = s.persisted ++ [obs.backtraceHash] ∧
      (solutionStep s obs).crashCount = s.crashCount + 1) := by
  refine ⟨?_, ?_, ?_⟩
  · exact (solutionStore_invariant obss initialSolutionStore
      (by simp [initialSolutionStore]) (by simp [initialSolutionStore])).1
  · intro hm
    unfold solutionStep objectiveStep crashIsInteresting newHashIsInteresting
    simp [hc, hm]
  · intro hm
    unfold solutionStep objectiveStep crashIsInteresting newHashIsInteresting
    simp [hc, hm]

/-- C5 witness: instantiating the dedup theorem on a concrete session of
two identical crashes, with a crash observation whose signature is
already known to a concrete store. -/
theorem crash_store_dedup_witness :
    (⟨[], 9, Outcome.crash, 7⟩ : ExecObservation).outcome = Outcome.crash ∧
    ((7 : Nat) ∈ (⟨⟨[7]⟩, [7], 1⟩ : SolutionStore).objState.seenHashes ∧
      (runSession [⟨[], 9, Outcome.crash, 7⟩, ⟨[], 9, Outcome.crash, 7⟩]).persisted.Nodup ∧
      (solutionStep ⟨⟨[7]⟩, [7], 1⟩ ⟨[], 9, Outcome.crash, 7⟩).persisted = [7]) := by
  have h := crash_store_dedup [⟨[], 9, Outcome.crash, 7⟩, ⟨[], 9, Outcome.crash, 7⟩]
    ⟨⟨[7]⟩, [7], 1⟩ ⟨[], 9, Outcome.crash, 7⟩ rfl
  exact ⟨rfl, by decide, h.1, (h.2.1 (by decide)).1⟩

/-- C3: The client returns an error before entering the fuzz loop iff the
corpus holds zero inputs after loading initial inputs and (when loading
produced none) running the artificial random-bytes seed generator;
whenever at least one input is present, the fuzz loop is entered. -/
theorem startup_fails_iff_empty (loadedCount generatedCount : Nat) :
    (runClientStartup loadedCount generatedCount = ClientOutcome.errored ↔
      corpusCountAfterInit loadedCount generatedCount = 0) ∧
    (runClientStartup loadedCount generatedCount = ClientOutcome.fuzzLoopEntered ↔
      1 ≤ corpusCountAfterInit loadedCount generatedCount) := by
  unfold runClientStartup
  by_cases h : corpusCountAfterInit loadedCount generatedCount = 0 <;>
    (simp [h]; try omega)

/-- C6: The Grimoire mutation stage and its companion generalization
stage are run on a fuzz-loop iteration iff the grimoire option is
enabled; with the option disabled both are skipped entirely. -/
theorem grimoire_stages_iff (grimoireEnabled : Bool) :
    (StageKind.grimoire ∈ stagesPerIteration grimoireEnabled ↔ grimoireEnabled = true) ∧
    (StageKind.generalization ∈ stagesPerIteration grimoireEnabled ↔ grimoireEnabled = true) := by
  cases grimoireEnabled <;> decide

/-- C7 counterexample: when the corpus path exists but is not a directory
(fs::create_dir fails and is_dir is false), main logs a diagnostic and
returns before the launcher — but fn main() returns unit, so the process
exit status on this path is 0, not non-zero as the claim states. -/
theorem dir_validation_counterexample :
    validateOutDirs ⟨false, false⟩ ⟨true, true⟩ = MainOutcome.configError true ∧
    validationExitStatus ⟨false, false⟩ ⟨true, true⟩ = some 0 := by
  decide

/-- C7 amended: whenever the corpus or crashes path fails validation
(creation failed and the path is not a directory), main logs an
error-level diagnostic and returns before the launcher and the fuzz loop,
and the process exits with status zero. -/
theorem dir_validation_amended (corpusDir crashesDir : DirProbe)
    (h : dirCheckFails corpusDir = true ∨ dirCheckFails crashesDir = true) :
    validateOutDirs corpusDir crashesDir = MainOutcome.configError true ∧
    validationExitStatus corpusDir crashesDir = some 0 := by
  rcases h with h | h
  · simp [validateOutDirs, validationExitStatus, h]
  · by_cases hc : dirCheckFails corpusDir <;>
      simp [validateOutDirs, validationExitStatus, h, hc]

/-- C7 witness: the amended theorem applied to a corpus path that exists
but is not a directory. -/
theorem dir_validation_amended_witness :
    validateOutDirs ⟨false, false⟩ ⟨true, false⟩ = MainOutcome.configError true ∧
    validationExitStatus ⟨false, false⟩ ⟨true, false⟩ = some 0 :=
  dir_validation_amended ⟨false, false⟩ ⟨true, false⟩ (Or.inl (by decide))

/-- C9: For a typed fuzz target, every input shorter than the lower bound
of the size_hint of its Arbitrary implementation makes
rust_fuzzer_test_input return immediately: the user body does not run and
no debug file is written, even when the debug path is set. -/
theorem typed_short_input_early_exit {α : Type} (D : ArbDecoder α)
    (debugPath : Option String) (bytes : List Nat)
    (h : bytes.length < D.sizeHintLo) :
    runTypedTarget D debugPath bytes = ⟨none, none⟩ := by
  unfold runTypedTarget
  rw [if_pos h]

/-- C9 witness: the early exit on a one-byte input to the concrete pair
target, whose size_hint lower bound is 2. -/
theorem typed_short_input_early_exit_witness :
    ([7] : List Nat).length < pairDecoder.sizeHintLo ∧
    runTypedTarget pairDecoder (some "dbg") [7] =
      (⟨none, none⟩ : TypedRunOutcome (Nat × Nat)) :=
  ⟨by decide, typed_short_input_early_exit pairDecoder (some "dbg") [7] (by decide)⟩

/-- C8 counterexample: with the debug path set, invoking the concrete
typed pair target on the one-byte input [7] writes nothing at all: the
size_hint early exit fires before the decode and before the debug-file
branch, although decoding [7] would fail and the claim says the decode
error is written to the file. -/
theorem typed_debug_counterexample :
    runTypedTarget pairDecoder (some "out.txt") [7] =
      (⟨none, none⟩ : TypedRunOutcome (Nat × Nat)) ∧
    pairDecoder.decode [7] = Except.error "not enough bytes" := by
  constructor
  · rfl
  · rfl

/-- C8 amended: in debug/replay mode, a byte-slice target writes the
Debug formatting of the input bytes, and a typed target whose input is at
least as long as the size_hint lower bound writes the alternate Debug
formatting of the decoded value or, when decoding fails, the decode
error; in both cases the user body does not run. -/
theorem debug_mode_writes_fmt {α : Type} (D : ArbDecoder α) (debugPath : String)
    (bytes : List Nat) (h : D.sizeHintLo ≤ bytes.length) :
    runBytesTarget (some debugPath) bytes = ⟨some (debugFmtBytes bytes), false⟩ ∧
    runTypedTarget D (some debugPath) bytes =
      ⟨some (match D.decode bytes with
             | Except.ok v => D.fmtAlt v
             | Except.error e => "Arbitrary Error: " ++ e),
       none⟩ := by
  refine ⟨rfl, ?_⟩
  unfold runTypedTarget
  rw [if_neg (by omega)]

/-- C10 counterexample: the claim only excludes build_std, careful_mode,
strip_dead_code, no_cfg_fuzzing and no_trace_compares; with all of those
false but coverage set, Display writes --coverage, which the clap parser
does not accept (the coverage field carries the skip attribute and is not
an argument), so parsing the displayed command line errors out instead of
returning the original value. -/
theorem display_parse_counterexample :
    (⟨false, false, false, false, false, false, Option.none, Sanitizer.address,
      false, false, defaultTarget, [], Option.none, true, false, false, false⟩ :
        BuildOptions).build_std = false ∧
    (⟨false, false, false, false, false, false, Option.none, Sanitizer.address,
      false, false, defaultTarget, [], Option.none, true, false, false, false⟩ :
        BuildOptions).careful_mode = false ∧
    (⟨false, false, false, false, false, false, Option.none, Sanitizer.address,
      false, false, defaultTarget, [], Option.none, true, false, false, false⟩ :
        BuildOptions).strip_dead_code = false ∧
    (⟨false, false, false, false, false, false, Option.none, Sanitizer.address,
      false, false, defaultTarget, [], Option.none, true, false, false, false⟩ :
        BuildOptions).no_cfg_fuzzing = false ∧
    (⟨false, false, false, false, false, false, Option.none, Sanitizer.address,
      false, false, defaultTarget, [], Option.none, true, false, false, false⟩ :
        BuildOptions).no_trace_compares = false ∧
    parseCommandLine (displayBuildOptions
      ⟨false, false, false, false, false, false, Option.none, Sanitizer.address,
        false, false, defaultTarget, [], Option.none, true, false, false, false⟩) =
      Except.error "unexpected argument: --coverage" := by
  exact ⟨rfl, rfl, rfl, rfl, rfl, rfl⟩

/-- C10: (amended) For every BuildOptions value in which build_std,
careful_mode, strip_dead_code, no_cfg_fuzzing and no_trace_compares are
all false — and additionally coverage is false, the declared clap
conflicts (dev with release; all-features with no-default-features or
--features) are absent, no displayed argument contains a space, and no
unstable flag is empty — splitting the command-line string produced by
the Display implementation on spaces and parsing it yields the original
value. -/
theorem display_parse_roundtrip (o : BuildOptions)
    (hbs : o.build_std = false) (hcm : o.careful_mode = false)
    (hsdc : o.strip_dead_code = false) (hncf : o.no_cfg_fuzzing = false)
    (hntc : o.no_trace_compares = false) (hcov : o.coverage = false)
    (hdr : (o.dev && o.release) = false)
    (haf : (o.all_features && (o.no_default_features || o.features.isSome)) = false)
    (hsp : ∀ tk ∈ displayTokens o, ' ' ∉ tk.data)
    (hz : ∀ fl ∈ o.unstable_flags, fl ≠ "") :
    parseCommandLine (displayBuildOptions o) = Except.ok o := by
  unfold parseCommandLine
  rw [splitSpaces_display o hsp]
  exact parseTokens_display o hbs hcm hsdc hncf hntc hcov hdr haf hz

/-- C10 witness: the round trip on a concrete value exercising every
displayed argument kind. -/
theorem display_parse_roundtrip_witness :
    (∀ tk ∈ displayTokens
      ⟨true, false, true, true, false, false, Option.some "serde", Sanitizer.thread,
        false, false, "custom-triple", ["unstable", "flags"], Option.some "/tmp/test",
        false, false, false, false⟩, ' ' ∉ tk.data) ∧
    (∀ fl ∈ (⟨true, false, true, true, false, false, Option.some "serde", Sanitizer.thread,
        false, false, "custom-triple", ["unstable", "flags"], Option.some "/tmp/test",
        false, false, false, false⟩ : BuildOptions).unstable_flags, fl ≠ "") ∧
    parseCommandLine (displayBuildOptions
      ⟨true, false, true, true, false, false, Option.some "serde", Sanitizer.thread,
        false, false, "custom-triple", ["unstable", "flags"], Option.some "/tmp/test",
        false, false, false, false⟩) =
      Except.ok ⟨true, false, true, true, false, false, Option.some "serde", Sanitizer.thread,
        false, false, "custom-triple", ["unstable", "flags"], Option.some "/tmp/test",
        false, false, false, false⟩ :=
  ⟨by decide, by decide,
    display_parse_roundtrip _ rfl rfl rfl rfl rfl rfl rfl rfl (by decide) (by decide)⟩

/-- C8 witness: the amended theorem applied to the concrete pair target
on a two-byte input, which decodes successfully. -/
theorem debug_mode_writes_fmt_witness :
    runBytesTarget (some "out.txt") [1, 2] = ⟨some (debugFmtBytes [1, 2]), false⟩ ∧
    runTypedTarget pairDecoder (some "out.txt") [1, 2] =
      ⟨some (match pairDecoder.decode [1, 2] with
             | Except.ok v => pairDecoder.fmtAlt v
             | Except.error e => "Arbitrary Error: " ++ e),
       none⟩ :=
  debug_mode_writes_fmt pairDecoder "out.txt" [1, 2] (by decide)

end CargoLibafl
